import Mathlib

/-
Verification development for the Stock-Analysis MCP server.

The development shallowly embeds the two source modules:

  * src/stock_mcp/tools.py  -- news aggregation, fundamentals collection,
    quote fetching with provider fallback;
  * main.py                 -- the exposed tool wrappers and the analysis
    orchestrator.

External effects (HTTP fetches, the yfinance library, feedparser, date
parsing) are modelled as explicit inputs: every embedded operation takes
the outcome of the corresponding external call as a parameter, and the
pure control flow of the Python source is translated line by line.
Python datetimes are modelled as natural numbers (with datetime.min as 0),
Python floats as rationals, and Python dicts by records or association
lists in insertion order.
-/

deriving instance DecidableEq for Except

namespace StockMCP

/-- Python str.endswith, on the character list of the string. -/
def endsWithPy (s suffix : String) : Bool := suffix.data.isSuffixOf s.data

/-- Fuel-driven core of Python str.replace: replaces every non-overlapping
occurrence of the (non-empty) pattern, scanning left to right. -/
def replaceFuel : Nat → List Char → List Char → List Char → List Char
  | 0, s, _, _ => s
  | _ + 1, [], _, _ => []
  | n + 1, c :: rest, pat, rep =>
    if pat.isPrefixOf (c :: rest) then
      rep ++ replaceFuel n ((c :: rest).drop pat.length) pat rep
    else
      c :: replaceFuel n rest pat rep

/-- Python str.replace for a non-empty pattern (the source only replaces
the literal suffix strings, never the empty pattern). -/
def replacePy (s pat rep : String) : String :=
  if pat.data.isEmpty then s
  else ⟨replaceFuel (s.data.length + 1) s.data pat.data rep.data⟩

/-- Python list slicing lst[:n] for an int n: a non-negative stop takes a
prefix, a negative stop removes the last abs n elements (clamped at zero). -/
def pySliceTo {α : Type} (l : List α) (n : Int) : List α :=
  if 0 ≤ n then l.take n.toNat else l.take (l.length - (-n).toNat)

/-- Model of a Python datetime; datetime.min is 0. -/
abbrev PyDateTime := Nat

/-- datetime.min in the model. -/
def dtMin : PyDateTime := 0

/-! ## News aggregation (tools.py, get_indian_stock_news) -/

/-- One processed news item, as appended to combined_news in the source
(keys title, link, publisher, published, source). -/
structure NewsItem where
  title : String
  link : String
  publisher : String
  published : PyDateTime
  source : String
deriving DecidableEq

/-- The "content" value of one raw yfinance news item.  The provider field
is none when the "provider" key is absent, some none when the provider dict
lacks "displayName" (the lookup then raises and the item is skipped), and
some (some s) when the display name is s.  canonicalUrl / clickThroughUrl
are some u exactly when the corresponding key is present, with u the value
of its "url" sub-key defaulted to the empty string. -/
structure YContent where
  title : String
  pubDate : Option String
  canonicalUrl : Option String
  clickThroughUrl : Option String
  provider : Option (Option String)
deriving DecidableEq

/-- Processing of one raw yfinance news item (the body of the first loop in
get_indian_stock_news).  A none input models an item without a "content"
key: the lookup raises and the per-item handler skips the item.  Returns
the item appended to combined_news, or none when the item is skipped. -/
def processYahooItem (strptimeY : String → Option PyDateTime)
    (raw : Option YContent) : Option NewsItem :=
  match raw with
  | none => none
  | some c =>
    if c.title = "" then none
    else
      let pubTime : PyDateTime :=
        match c.pubDate with
        | some s => if s = "" then dtMin else (strptimeY s).getD dtMin
        | none => dtMin
      let url : String :=
        match c.canonicalUrl with
        | some u => u
        | none =>
          match c.clickThroughUrl with
          | some u => u
          | none => ""
      match c.provider with
      | some none => none
      | some (some disp) =>
        if url = "" then none
        else some ⟨c.title, url, disp, pubTime, "Yahoo Finance"⟩
      | none =>
        if url = "" then none
        else some ⟨c.title, url, "Unknown", pubTime, "Yahoo Finance"⟩

/-- The source attribute of a Google News RSS entry: either a dict with an
optional "title" key, or some other value rendered with str. -/
inductive GSrc where
  | dict (title : Option String)
  | other (s : String)
deriving DecidableEq

/-- One entry of the parsed Google News RSS feed; every field is an
optional key of the entry mapping. -/
structure GEntry where
  title : String
  published : Option String
  link : Option String
  gsource : Option GSrc
deriving DecidableEq

/-- parse_google_date from tools.py: strptime with a fixed format, falling
back to datetime.min when parsing fails.  The strptime call itself is the
external parameter. -/
def parse_google_date (strptimeG : String → Option PyDateTime)
    (s : String) : PyDateTime :=
  (strptimeG s).getD dtMin

/-- Processing of one Google News RSS entry (the body of the second loop in
get_indian_stock_news).  Entries with a falsy title are skipped; the link
defaults to the empty string with no further check. -/
def processGoogleEntry (strptimeG : String → Option PyDateTime)
    (e : GEntry) : Option NewsItem :=
  if e.title = "" then none
  else
    let publisher : String :=
      match e.gsource with
      | some (.dict t) => t.getD "Unknown"
      | some (.other s) => s
      | none => "Unknown"
    some ⟨e.title, e.link.getD "", publisher,
          parse_google_date strptimeG (e.published.getD ""), "Google News"⟩

/-- External world of the news pipeline: the two date parsers, the URL
quoting function, the yfinance news fetch keyed by ticker (error models an
exception from yf.Ticker(..).news, ok its possibly empty item list), and
the feedparser fetch keyed by the RSS URL (error models an exception, ok
the possibly empty entry list). -/
structure NewsEnv where
  strptimeY : String → Option PyDateTime
  strptimeG : String → Option PyDateTime
  quotePlus : String → String
  yfFetch : String → Except String (List (Option YContent))
  googleFetch : String → Except String (List GEntry)

/-- build_google_news_rss_url from tools.py. -/
def build_google_news_rss_url (env : NewsEnv) (query : String) : String :=
  "https://news.google.com/rss/search?q=" ++ env.quotePlus query
    ++ "&hl=en-IN&gl=IN&ceid=IN:en"

/-- The Yahoo Finance half of get_indian_stock_news: the surviving items in
order together with the yf_success flag (set exactly when the fetch itself
did not raise). -/
def yfProcessed (env : NewsEnv) (ticker : String) : List NewsItem × Bool :=
  match env.yfFetch ticker with
  | .ok raws => (raws.filterMap (processYahooItem env.strptimeY), true)
  | .error _ => ([], false)

/-- The Google News half of get_indian_stock_news: the surviving items in
order together with the google_success flag.  The flag stays false when the
fetch raises and also when the feed has no entries, because the success
assignment sits inside the non-empty branch in the source. -/
def googleProcessed (env : NewsEnv) (stock_name : String)
    (query : Option String) : List NewsItem × Bool :=
  let q := query.getD (stock_name ++ " stock India")
  match env.googleFetch (build_google_news_rss_url env q) with
  | .ok entries =>
    if entries.isEmpty then ([], false)
    else (entries.filterMap (processGoogleEntry env.strptimeG), true)
  | .error _ => ([], false)

/-- combined_news just before sorting: the Yahoo items followed by the
Google items, in fetch order. -/
def combinedNews (env : NewsEnv) (ticker stock_name : String)
    (query : Option String) : List NewsItem :=
  (yfProcessed env ticker).1 ++ (googleProcessed env stock_name query).1

/-- The comparison used by combined_news.sort(key published, reverse):
descending by published date, stable on ties. -/
def newsDescBy (a b : NewsItem) : Bool := decide (b.published ≤ a.published)

/-- combined_news after the sort call: stable sort, published descending. -/
def sortedNews (env : NewsEnv) (ticker stock_name : String)
    (query : Option String) : List NewsItem :=
  (combinedNews env ticker stock_name query).mergeSort newsDescBy

/-- get_indian_stock_news from tools.py.  Raises (error) exactly when
combined_news is empty and neither success flag is set; otherwise returns
the sorted list truncated by the Python slice [:max_items]. -/
def get_indian_stock_news (env : NewsEnv) (ticker stock_name : String)
    (query : Option String) (max_items : Int) : Except String (List NewsItem) :=
  if combinedNews env ticker stock_name query = []
      ∧ (yfProcessed env ticker).2 = false
      ∧ (googleProcessed env stock_name query).2 = false then
    .error ("Failed to retrieve news from both Yahoo Finance and Google News for "
      ++ ticker)
  else
    .ok (pySliceTo (sortedNews env ticker stock_name query) max_items)

/-! ## Quote fetching (tools.py, the three quote functions) -/

/-- Rounding of a rational to two decimal places, matching the Python
built-in round (round half to even). -/
def roundHalfEven (q : ℚ) : ℤ :=
  let n := ⌊q⌋
  let frac := q - (n : ℚ)
  if frac < 1 / 2 then n
  else if (1 : ℚ) / 2 < frac then n + 1
  else if n % 2 = 0 then n else n + 1

/-- round(x, 2) from the Python source. -/
def round2 (x : ℚ) : ℚ := ((roundHalfEven (x * 100) : ℤ) : ℚ) / 100

/-- Suffix normalization shared by the Yahoo quote path and the
fundamentals path: keep a symbol that already ends in .NS or .BO,
otherwise default to NSE by appending .NS. -/
def ensureYahooSuffix (s : String) : String :=
  if endsWithPy s ".NS" || endsWithPy s ".BO" then s else s ++ ".NS"

/-- Suffix normalization of the Alpha Vantage path: keep a symbol that
already ends in .BSE, otherwise append .BSE. -/
def ensureBSESuffix (s : String) : String :=
  if endsWithPy s ".BSE" then s else s ++ ".BSE"

/-- Outcome of one HTTP request in the model: a raise_for_status failure
with its status code, any other exception with its message, or a decoded
JSON body. -/
inductive HttpOutcome (α : Type) where
  | statusErr (code : Nat)
  | exn (msg : String)
  | ok (a : α)

/-- The meta object of the Yahoo chart response; every field is an
optional key, defaulted to 0 by the source. -/
structure YahooChartMeta where
  regularMarketPrice : Option ℚ
  previousClose : Option ℚ
  regularMarketDayHigh : Option ℚ
  regularMarketDayLow : Option ℚ
  regularMarketVolume : Option Int
  regularMarketTime : Option Int
deriving DecidableEq

/-- The decoded Yahoo chart payload: the chart error field and the meta of
the first result. -/
structure YahooChart where
  chartError : Option String
  meta : YahooChartMeta
deriving DecidableEq

/-- The change_percent value of a returned quote: the Yahoo path computes
a rounded number, the Alpha Vantage path passes the provider string with
percent signs stripped. -/
inductive CPercent where
  | num (q : ℚ)
  | str (s : String)
deriving DecidableEq

/-- The quote mapping returned by the quote functions.  timestamp is the
Yahoo-only key, latest_trading_day the Alpha Vantage-only key; data_source
is filled in by the fallback wrapper. -/
structure Quote where
  symbol : String
  current_price : ℚ
  previous_close : ℚ
  change : ℚ
  change_percent : CPercent
  day_high : ℚ
  day_low : ℚ
  volume : Int
  timestamp : Option Int
  latest_trading_day : Option String
  data_source : String
deriving DecidableEq

/-- Body of get_indian_stock_quote_yahoo after the HTTP call, for the
already-normalized symbol.  The inner API-error raise is caught by the
generic handler of the same function and re-wrapped. -/
def yahooHandle (sym : String) (o : HttpOutcome YahooChart) : Except String Quote :=
  match o with
  | .statusErr c => .error ("HTTP Error: " ++ toString c)
  | .exn m => .error ("Error fetching stock data: " ++ m)
  | .ok chart =>
    match chart.chartError with
    | some e => .error ("Error fetching stock data: API Error: " ++ e)
    | none =>
      let current := chart.meta.regularMarketPrice.getD 0
      let prev := chart.meta.previousClose.getD 0
      let change := current - prev
      let changePercent : ℚ := if prev = 0 then 0 else change / prev * 100
      .ok { symbol := sym
            current_price := current
            previous_close := prev
            change := round2 change
            change_percent := .num (round2 changePercent)
            day_high := chart.meta.regularMarketDayHigh.getD 0
            day_low := chart.meta.regularMarketDayLow.getD 0
            volume := chart.meta.regularMarketVolume.getD 0
            timestamp := some (chart.meta.regularMarketTime.getD 0)
            latest_trading_day := none
            data_source := "" }

/-- get_indian_stock_quote_yahoo from tools.py, parameterized by the HTTP
fetch keyed by the queried symbol. -/
def get_indian_stock_quote_yahoo (fetch : String → HttpOutcome YahooChart)
    (symbol : String) : Except String Quote :=
  yahooHandle (ensureYahooSuffix symbol) (fetch (ensureYahooSuffix symbol))

/-- The Global Quote object of the Alpha Vantage response.  Numeric fields
are modelled after their float()/int() conversion; the change percent stays
the raw provider string. -/
structure GlobalQuote where
  symbol01 : Option String
  high03 : Option ℚ
  low04 : Option ℚ
  price05 : Option ℚ
  volume06 : Option Int
  latestDay07 : Option String
  prevClose08 : Option ℚ
  change09 : Option ℚ
  changePercent10 : Option String
deriving DecidableEq

/-- The decoded Alpha Vantage response: the optional Global Quote key. -/
structure AlphaResp where
  globalQuote : Option GlobalQuote
deriving DecidableEq

/-- Body of get_indian_stock_quote_alphavantage after the HTTP call, for
the already-normalized symbol.  A missing Global Quote key raises inside
the try block and is re-wrapped by the generic handler. -/
def alphaHandle (sym : String) (o : HttpOutcome AlphaResp) : Except String Quote :=
  match o with
  | .statusErr c => .error ("HTTP Error: " ++ toString c)
  | .exn m => .error ("Error fetching stock data: " ++ m)
  | .ok resp =>
    match resp.globalQuote with
    | none => .error ("Error fetching stock data: Invalid response or API limit reached")
    | some q =>
      .ok { symbol := q.symbol01.getD sym
            current_price := q.price05.getD 0
            previous_close := q.prevClose08.getD 0
            change := q.change09.getD 0
            change_percent := .str (replacePy (q.changePercent10.getD "0%") "%" "")
            day_high := q.high03.getD 0
            day_low := q.low04.getD 0
            volume := q.volume06.getD 0
            timestamp := none
            latest_trading_day := some (q.latestDay07.getD "N/A")
            data_source := "" }

/-- get_indian_stock_quote_alphavantage from tools.py, parameterized by
the HTTP fetch keyed by the queried symbol. -/
def get_indian_stock_quote_alphavantage (fetch : String → HttpOutcome AlphaResp)
    (symbol : String) : Except String Quote :=
  alphaHandle (ensureBSESuffix symbol) (fetch (ensureBSESuffix symbol))

/-- get_indian_stock_quote from tools.py: try Yahoo Finance, on failure
try Alpha Vantage, on double failure raise the combined error; the
successful result is tagged with its data source. -/
def get_indian_stock_quote (fy : String → HttpOutcome YahooChart)
    (fa : String → HttpOutcome AlphaResp) (symbol : String) : Except String Quote :=
  match get_indian_stock_quote_yahoo fy symbol with
  | .ok r => .ok { r with data_source := "Yahoo Finance" }
  | .error yahooError =>
    match get_indian_stock_quote_alphavantage fa symbol with
    | .ok r => .ok { r with data_source := "Alpha Vantage" }
    | .error avError =>
      .error ("Both APIs failed - Yahoo: " ++ yahooError
        ++ ", Alpha Vantage: " ++ avError)

/-- The sequence of provider attempts performed by the try/except chain of
get_indian_stock_quote: Yahoo Finance always first, Alpha Vantage exactly
when the Yahoo attempt raised. -/
def quoteAttempts (fy : String → HttpOutcome YahooChart)
    (_fa : String → HttpOutcome AlphaResp) (symbol : String) : List String :=
  match get_indian_stock_quote_yahoo fy symbol with
  | .ok _ => ["Yahoo Finance"]
  | .error _ => ["Yahoo Finance", "Alpha Vantage"]

/-! ## Fundamentals collection (tools.py, get_indian_stock_fundamentals) -/

/-- Outcome of reading one fundamentals sub-section from yfinance: the
accessor raises, yields an empty or null structure, or yields non-empty
data (the payload of the resulting dict is abstracted to a number). -/
inductive FetchResult (α : Type) where
  | raises (msg : String)
  | emptyRes
  | ok (val : α)
deriving DecidableEq

/-- True exactly on the raising outcome. -/
def FetchResult.isRaise {α : Type} : FetchResult α → Bool
  | .raises _ => true
  | _ => false

/-- The value stored for a sub-section when its accessor did not raise:
none models the empty mapping stored for an empty or null structure. -/
def FetchResult.stored {α : Type} : FetchResult α → Option α
  | .raises _ => none
  | .emptyRes => none
  | .ok v => some v

/-- External world of one fundamentals call on a given ticker: whether
yf.Ticker construction raises, and the outcome of each of the five
sub-section accessors. -/
structure FundFetch where
  tickerErr : Option String
  info : FetchResult Nat
  financials : FetchResult Nat
  balance_sheet : FetchResult Nat
  cashflow : FetchResult Nat
  sustainability : FetchResult Nat

/-- The data dict built by the single guarded block of
get_indian_stock_fundamentals: sub-sections are read in the fixed order
info, financials, balance_sheet, cashflow, sustainability; a raising
accessor is caught by the one except clause around the whole block, so the
keys after it are never stored. -/
def fundSections (ff : FundFetch) : List (String × Option Nat) :=
  match ff.info with
  | .raises _ => []
  | i =>
    match ff.financials with
    | .raises _ => [("info", i.stored)]
    | f =>
      match ff.balance_sheet with
      | .raises _ => [("info", i.stored), ("financials", f.stored)]
      | b =>
        match ff.cashflow with
        | .raises _ =>
          [("info", i.stored), ("financials", f.stored),
           ("balance_sheet", b.stored)]
        | c =>
          match ff.sustainability with
          | .raises _ =>
            [("info", i.stored), ("financials", f.stored),
             ("balance_sheet", b.stored), ("cashflow", c.stored)]
          | s =>
            [("info", i.stored), ("financials", f.stored),
             ("balance_sheet", b.stored), ("cashflow", c.stored),
             ("sustainability", s.stored)]

/-- Body of get_indian_stock_fundamentals after the Ticker construction,
for the already-normalized ticker.  Only a failure of the construction
escapes (re-wrapped unless its message mentions missing fundamental data);
accessor failures are swallowed by the inner except clause and yield a
truncated dict. -/
def fundHandle (t : String) (ff : FundFetch) :
    Except String (List (String × Option Nat)) :=
  match ff.tickerErr with
  | some m =>
    if (m.splitOn "No fundamental data available").length > 1 then .error m
    else .error ("Unexpected error fetching fundamentals for " ++ t ++ ": " ++ m)
  | none => .ok (fundSections ff)

/-- get_indian_stock_fundamentals from tools.py, parameterized by the
external fetch keyed by the normalized ticker. -/
def get_indian_stock_fundamentals (fetch : String → FundFetch)
    (ticker : String) : Except String (List (String × Option Nat)) :=
  fundHandle (ensureYahooSuffix ticker) (fetch (ensureYahooSuffix ticker))

/-! ## Exposed tool wrappers and the orchestrator (main.py) -/

/-- The envelope every exposed tool returns: the success flag, the error
string of the failure branch, and the payload of the success branch.  The
wall-clock timestamp field of the source is not modelled. -/
structure SubResp (α : Type) where
  success : Bool
  error : Option String
  payload : Option α
deriving DecidableEq

/-- get_stock_quote from main.py: wraps the fallback quote fetch, never
letting the exception escape. -/
def get_stock_quote (fy : String → HttpOutcome YahooChart)
    (fa : String → HttpOutcome AlphaResp) (symbol : String) : SubResp Quote :=
  match get_indian_stock_quote fy fa symbol with
  | .ok q => ⟨true, none, some q⟩
  | .error e => ⟨false, some e, none⟩

/-- get_stock_fundamentals from main.py. -/
def get_stock_fundamentals (fetch : String → FundFetch) (ticker : String) :
    SubResp (List (String × Option Nat)) :=
  match get_indian_stock_fundamentals fetch ticker with
  | .ok d => ⟨true, none, some d⟩
  | .error e => ⟨false, some e, none⟩

/-- get_stock_news from main.py. -/
def get_stock_news (env : NewsEnv) (ticker stock_name : String)
    (query : Option String) (max_items : Int) : SubResp (List NewsItem) :=
  match get_indian_stock_news env ticker stock_name query max_items with
  | .ok items => ⟨true, none, some items⟩
  | .error e => ⟨false, some e, none⟩

/-- The symbol passed by the orchestrator to the quote tool:
ticker.replace applied to both exchange suffixes, anywhere in the
string. -/
def stripExchangeSuffix (ticker : String) : String :=
  replacePy (replacePy ticker ".NS" "") ".BO" ""

/-- The comprehensive report built by get_stock_analysis. -/
structure AnalysisReport where
  success : Bool
  ticker : String
  stock_name : String
  quote : SubResp Quote
  fundamentals : SubResp (List (String × Option Nat))
  news : Option (SubResp (List NewsItem))
  failed_components : Option (List String)

/-- get_stock_analysis from main.py: always calls the quote tool on the
suffix-stripped ticker and the fundamentals tool on the raw ticker, calls
the news tool exactly when include_news, then collects the names of the
sub-results whose success flag is false, in dict insertion order. -/
def get_stock_analysis (fy : String → HttpOutcome YahooChart)
    (fa : String → HttpOutcome AlphaResp) (fund : String → FundFetch)
    (env : NewsEnv) (ticker stock_name : String) (include_news : Bool)
    (max_news : Int) : AnalysisReport :=
  let q := get_stock_quote fy fa (stripExchangeSuffix ticker)
  let f := get_stock_fundamentals fund ticker
  let n := if include_news then
      some (get_stock_news env ticker stock_name none max_news)
    else none
  let failed : List String :=
    (if q.success then [] else ["quote"])
      ++ (if f.success then [] else ["fundamentals"])
      ++ (match n with
          | some nr => if nr.success then [] else ["news"]
          | none => [])
  { success := failed.isEmpty
    ticker := ticker
    stock_name := stock_name
    quote := q
    fundamentals := f
    news := n
    failed_components := if failed.isEmpty then none else some failed }

/-! ## Concrete external worlds used to evaluate the operations -/

/-- Date parser that fails on every input. -/
def strNone : String → Option PyDateTime := fun _ => none

/-- News world where both feeds raise. -/
def envBothFail : NewsEnv :=
  ⟨strNone, strNone, id, fun _ => .error "yfinance down", fun _ => .error "rss down"⟩

/-- News world where yfinance returns an empty item list (success) and the
RSS fetch raises. -/
def envYEmpty : NewsEnv :=
  ⟨strNone, strNone, id, fun _ => .ok [], fun _ => .error "rss down"⟩

/-- A Google News entry carrying a title but no link at all. -/
def gE4 : GEntry := ⟨"Headline", none, none, none⟩

/-- News world where yfinance has no items and Google News serves the one
linkless entry. -/
def envC4 : NewsEnv :=
  ⟨strNone, strNone, id, fun _ => .ok [], fun _ => .ok [gE4]⟩

/-- The processed form of the linkless Google entry. -/
def gItemC4 : NewsItem := ⟨"Headline", "", "Unknown", 0, "Google News"⟩

/-- A yfinance news content with a canonical url and no provider. -/
def yC : YContent := ⟨"YT", none, some "http://x", none, none⟩

/-- News world where yfinance serves the one well-linked item and the RSS
fetch raises. -/
def envY1 : NewsEnv :=
  ⟨strNone, strNone, id, fun _ => .ok [some yC], fun _ => .error "rss down"⟩

/-- The processed form of yC. -/
def yItemW : NewsItem := ⟨"YT", "http://x", "Unknown", 0, "Yahoo Finance"⟩

/-- Yahoo quote fetch that always raises a timeout. -/
def fyFail : String → HttpOutcome YahooChart := fun _ => .exn "Connection timeout"

/-- Alpha Vantage quote fetch that always raises. -/
def faFail : String → HttpOutcome AlphaResp := fun _ => .exn "API limit reached"

/-- A well-formed Yahoo chart response. -/
def chartW : YahooChart := ⟨none, ⟨some 100, some 50, some 110, some 95, some 1000, some 170⟩⟩

/-- Yahoo quote fetch that always serves chartW. -/
def fyOk : String → HttpOutcome YahooChart := fun _ => .ok chartW

/-- The quote computed from chartW before the data source tag. -/
def qW0 : Quote :=
  ⟨ensureYahooSuffix "TCS", 100, 50, round2 (100 - 50),
   .num (round2 ((100 - 50) / 50 * 100)), 110, 95, 1000, some 170, none, ""⟩

/-- The quote computed from chartW after the Yahoo Finance tag. -/
def qWY : Quote := { qW0 with data_source := "Yahoo Finance" }

/-- A Global Quote whose reported change disagrees with the difference of
its price and previous close. -/
def gqC3 : GlobalQuote :=
  ⟨some "TCS.BSE", some 110, some 95, some 100, some 1000,
   some "2024-05-31", some 90, some 5, some "5.56%"⟩

/-- Alpha Vantage fetch that always serves gqC3. -/
def faC3 : String → HttpOutcome AlphaResp := fun _ => .ok ⟨some gqC3⟩

/-- The quote produced from gqC3 through the fallback path. -/
def qA : Quote :=
  ⟨"TCS.BSE", 100, 90, 5, .str "5.56", 110, 95, 1000, none,
   some "2024-05-31", "Alpha Vantage"⟩

/-- Fundamentals world whose financials accessor raises. -/
def ffC1 : FundFetch := ⟨none, .ok 7, .raises "boom", .ok 1, .ok 2, .ok 3⟩

/-- Fundamentals fetch serving ffC1 on every ticker. -/
def fundC1 : String → FundFetch := fun _ => ffC1

/-- Fundamentals world where nothing raises and two sub-sections come back
empty. -/
def ffW : FundFetch := ⟨none, .ok 1, .emptyRes, .ok 2, .emptyRes, .ok 3⟩

/-- Fundamentals fetch serving ffW on every ticker. -/
def fundW : String → FundFetch := fun _ => ffW

/-! ## Helper lemmas -/

theorem roundHalfEven_intCast (n : ℤ) : roundHalfEven ((n : ℤ) : ℚ) = n := by
  unfold roundHalfEven
  simp [Int.floor_intCast]

theorem round2_intCast (n : ℤ) : round2 ((n : ℤ) : ℚ) = n := by
  unfold round2
  have h : ((n : ℤ) : ℚ) * 100 = ((n * 100 : ℤ) : ℚ) := by push_cast; ring
  rw [h, roundHalfEven_intCast]
  push_cast
  field_simp

theorem round2_zero : round2 0 = 0 := by
  have h : ((0 : ℤ) : ℚ) = (0 : ℚ) := by norm_num
  rw [← h, round2_intCast]

theorem pySliceTo_nil {α : Type} (n : Int) : pySliceTo ([] : List α) n = [] := by
  unfold pySliceTo
  split <;> simp

theorem pySliceTo_sublist {α : Type} (l : List α) (n : Int) :
    (pySliceTo l n).Sublist l := by
  unfold pySliceTo
  split <;> exact List.take_sublist _ _

theorem newsDescBy_trans (a b c : NewsItem) (h1 : newsDescBy a b = true)
    (h2 : newsDescBy b c = true) : newsDescBy a c = true := by
  simp only [newsDescBy, decide_eq_true_eq] at *
  exact le_trans h2 h1

theorem newsDescBy_total (a b : NewsItem) :
    (newsDescBy a b || newsDescBy b a) = true := by
  simp only [newsDescBy, Bool.or_eq_true, decide_eq_true_eq]
  exact le_total b.published a.published

theorem news_ok_eq (env : NewsEnv) (t s : String) (q : Option String)
    (m : Int) (l : List NewsItem)
    (h : get_indian_stock_news env t s q m = .ok l) :
    l = pySliceTo ((combinedNews env t s q).mergeSort newsDescBy) m := by
  unfold get_indian_stock_news at h
  split at h
  · exact absurd h (by simp)
  · simpa [sortedNews] using h.symm

theorem news_error_iff (env : NewsEnv) (t s : String) (q : Option String)
    (m : Int) :
    (∃ e, get_indian_stock_news env t s q m = .error e)
      ↔ (combinedNews env t s q = [] ∧ (yfProcessed env t).2 = false
          ∧ (googleProcessed env s q).2 = false) := by
  unfold get_indian_stock_news
  split
  · next hc => simp [hc]
  · next hc => simp [hc]

theorem processYahooItem_link (f : String → Option PyDateTime)
    (raw : Option YContent) (it : NewsItem)
    (h : processYahooItem f raw = some it) :
    it.link ≠ "" ∧ it.source = "Yahoo Finance" := by
  unfold processYahooItem at h
  cases raw with
  | none => simp at h
  | some c =>
    simp only [] at h
    split at h
    · simp at h
    · split at h
      · simp at h
      · split at h
        · simp at h
        · simp only [Option.some.injEq] at h
          subst h
          simp_all
      · split at h
        · simp at h
        · simp only [Option.some.injEq] at h
          subst h
          simp_all

theorem processGoogleEntry_source (g : String → Option PyDateTime)
    (e : GEntry) (it : NewsItem) (h : processGoogleEntry g e = some it) :
    it.source = "Google News" := by
  unfold processGoogleEntry at h
  split at h
  · simp at h
  · simp only [Option.some.injEq] at h
    subst h
    rfl

theorem FetchResult.not_raise_cases {α : Type} (r : FetchResult α)
    (h : r.isRaise = false) : r = .emptyRes ∨ ∃ v, r = .ok v := by
  cases r <;> simp_all [FetchResult.isRaise]

/-! ## Claims -/

/-- C8: symbol normalization is total; it returns the symbol unchanged when
it already ends with a suffix the target provider recognizes (.NS or .BO
for the Yahoo-style adapters, .BSE for the secondary provider) and
otherwise returns the symbol with exactly that provider default suffix
appended once; the quote paths and the fundamentals path all consult the
external fetch at the normalized symbol. -/
theorem C8_suffix_normalization (s : String) :
    ((endsWithPy s ".NS" = true ∨ endsWithPy s ".BO" = true) →
      ensureYahooSuffix s = s)
    ∧ ((endsWithPy s ".NS" = false ∧ endsWithPy s ".BO" = false) →
      ensureYahooSuffix s = s ++ ".NS")
    ∧ (endsWithPy s ".BSE" = true → ensureBSESuffix s = s)
    ∧ (endsWithPy s ".BSE" = false → ensureBSESuffix s = s ++ ".BSE")
    ∧ (∀ fetch : String → HttpOutcome YahooChart,
        get_indian_stock_quote_yahoo fetch s
          = yahooHandle (ensureYahooSuffix s) (fetch (ensureYahooSuffix s)))
    ∧ (∀ fetch : String → HttpOutcome AlphaResp,
        get_indian_stock_quote_alphavantage fetch s
          = alphaHandle (ensureBSESuffix s) (fetch (ensureBSESuffix s)))
    ∧ (∀ fetch : String → FundFetch,
        get_indian_stock_fundamentals fetch s
          = fundHandle (ensureYahooSuffix s) (fetch (ensureYahooSuffix s))) := by
  refine ⟨?_, ?_, ?_, ?_, fun _ => rfl, fun _ => rfl, fun _ => rfl⟩
  · intro h
    unfold ensureYahooSuffix
    rcases h with h | h <;> simp [h]
  · rintro ⟨h1, h2⟩
    unfold ensureYahooSuffix
    simp [h1, h2]
  · intro h
    unfold ensureBSESuffix
    simp [h]
  · intro h
    unfold ensureBSESuffix
    simp [h]

/-- Witness for C8 at concrete symbols of each kind. -/
theorem C8_suffix_normalization_witness :
    ensureYahooSuffix "INFY.BO" = "INFY.BO"
    ∧ ensureYahooSuffix "TCS" = "TCS" ++ ".NS"
    ∧ ensureBSESuffix "TCS.BSE" = "TCS.BSE"
    ∧ ensureBSESuffix "TCS" = "TCS" ++ ".BSE" :=
  ⟨(C8_suffix_normalization "INFY.BO").1 (Or.inr (by decide)),
   (C8_suffix_normalization "TCS").2.1 ⟨by decide, by decide⟩,
   (C8_suffix_normalization "TCS.BSE").2.2.1 (by decide),
   (C8_suffix_normalization "TCS").2.2.2.1 (by decide)⟩

/-- C6: when both providers fail, the fallback raises a single combined
error embedding both provider messages, and the exposed quote tool turns
that into success false with the same error string. -/
theorem C6_combined_error (fy : String → HttpOutcome YahooChart)
    (fa : String → HttpOutcome AlphaResp) (symbol ye ae : String)
    (hy : get_indian_stock_quote_yahoo fy symbol = .error ye)
    (ha : get_indian_stock_quote_alphavantage fa symbol = .error ae) :
    get_indian_stock_quote fy fa symbol
      = .error ("Both APIs failed - Yahoo: " ++ ye ++ ", Alpha Vantage: " ++ ae)
    ∧ (get_stock_quote fy fa symbol).success = false
    ∧ (get_stock_quote fy fa symbol).error
      = some ("Both APIs failed - Yahoo: " ++ ye ++ ", Alpha Vantage: " ++ ae)
    ∧ ∃ p m, (get_stock_quote fy fa symbol).error = some (p ++ ye ++ m ++ ae) := by
  have hq : get_indian_stock_quote fy fa symbol
      = .error ("Both APIs failed - Yahoo: " ++ ye ++ ", Alpha Vantage: " ++ ae) := by
    simp [get_indian_stock_quote, hy, ha]
  refine ⟨hq, ?_, ?_, ?_⟩
  · simp [get_stock_quote, hq]
  · simp [get_stock_quote, hq]
  · exact ⟨"Both APIs failed - Yahoo: ", ", Alpha Vantage: ",
      by simp [get_stock_quote, hq]⟩

/-- Witness for C6 with two concretely failing providers. -/
theorem C6_combined_error_witness :
    (get_stock_quote fyFail faFail "TCS").success = false
    ∧ (get_stock_quote fyFail faFail "TCS").error
      = some ("Both APIs failed - Yahoo: " ++ "Error fetching stock data: Connection timeout"
          ++ ", Alpha Vantage: " ++ "Error fetching stock data: API limit reached") := by
  have h := C6_combined_error fyFail faFail "TCS"
    "Error fetching stock data: Connection timeout"
    "Error fetching stock data: API limit reached"
    (by decide) (by decide)
  exact ⟨h.2.1, h.2.2.1⟩

/-- C7: the fallback is a strict ordered chain: Yahoo Finance is always the
first and only initial attempt, Alpha Vantage is attempted exactly when the
Yahoo attempt failed, each provider is attempted at most once, and the
returned data source names the provider that served the quote. -/
theorem C7_ordered_fallback (fy : String → HttpOutcome YahooChart)
    (fa : String → HttpOutcome AlphaResp) (symbol : String) :
    (quoteAttempts fy fa symbol).head? = some "Yahoo Finance"
    ∧ (quoteAttempts fy fa symbol).count "Yahoo Finance" = 1
    ∧ (quoteAttempts fy fa symbol).count "Alpha Vantage" ≤ 1
    ∧ ("Alpha Vantage" ∈ quoteAttempts fy fa symbol
        ↔ ∃ e, get_indian_stock_quote_yahoo fy symbol = .error e)
    ∧ (∀ q, get_indian_stock_quote_yahoo fy symbol = .ok q →
        get_indian_stock_quote fy fa symbol
            = .ok { q with data_source := "Yahoo Finance" }
          ∧ quoteAttempts fy fa symbol = ["Yahoo Finance"])
    ∧ (∀ e q, get_indian_stock_quote_yahoo fy symbol = .error e →
        get_indian_stock_quote_alphavantage fa symbol = .ok q →
        get_indian_stock_quote fy fa symbol
            = .ok { q with data_source := "Alpha Vantage" }
          ∧ quoteAttempts fy fa symbol = ["Yahoo Finance", "Alpha Vantage"]) := by
  cases hy : get_indian_stock_quote_yahoo fy symbol with
  | ok q0 =>
    refine ⟨?_, ?_, ?_, ?_, ?_, ?_⟩
    · simp [quoteAttempts, hy]
    · simp [quoteAttempts, hy]
    · simp [quoteAttempts, hy]
    · simp [quoteAttempts, hy]
    · intro q hq
      obtain rfl : q0 = q := by injection hq
      exact ⟨by simp [get_indian_stock_quote, hy], by simp [quoteAttempts, hy]⟩
    · intro e q he
      exact absurd he (by simp)
  | error e0 =>
    refine ⟨?_, ?_, ?_, ?_, ?_, ?_⟩
    · simp [quoteAttempts, hy]
    · simp [quoteAttempts, hy]
    · simp [quoteAttempts, hy]
    · simp [quoteAttempts, hy]
    · intro q hq
      exact absurd hq (by simp)
    · intro e q he ha
      exact ⟨by simp [get_indian_stock_quote, hy, ha], by simp [quoteAttempts, hy]⟩

/-- Witness for C7: with a succeeding Yahoo fetch the combined result is
the Yahoo quote tagged Yahoo Finance and the only attempt is Yahoo. -/
theorem C7_ordered_fallback_witness :
    get_indian_stock_quote fyOk faFail "TCS"
        = .ok { qW0 with data_source := "Yahoo Finance" }
      ∧ quoteAttempts fyOk faFail "TCS" = ["Yahoo Finance"] := by
  have hy : get_indian_stock_quote_yahoo fyOk "TCS" = .ok qW0 := by
    have h50 : ¬ ((50 : ℚ) = 0) := by norm_num
    simp [get_indian_stock_quote_yahoo, yahooHandle, fyOk, chartW, qW0, h50]
  exact (C7_ordered_fallback fyOk faFail "TCS").2.2.2.2.1 qW0 hy

/-- C2: the news aggregation raises exactly when the merged list is empty
and neither source reported success; an empty merge with at least one
successful source returns the empty sequence without error. -/
theorem C2_news_failure_semantics (env : NewsEnv) (t s : String)
    (q : Option String) (m : Int) :
    ((∃ e, get_indian_stock_news env t s q m = .error e)
      ↔ (combinedNews env t s q = [] ∧ (yfProcessed env t).2 = false
          ∧ (googleProcessed env s q).2 = false))
    ∧ (combinedNews env t s q = [] →
        ((yfProcessed env t).2 = true ∨ (googleProcessed env s q).2 = true) →
        get_indian_stock_news env t s q m = .ok []) := by
  refine ⟨news_error_iff env t s q m, ?_⟩
  intro hc hflag
  unfold get_indian_stock_news
  rw [if_neg]
  · have hsort : sortedNews env t s q = [] := by
      unfold sortedNews
      rw [hc]
      exact List.mergeSort_nil
    rw [hsort, pySliceTo_nil]
  · rintro ⟨_, h2, h3⟩
    rcases hflag with h | h <;> simp_all

/-- Witness for C2: with both sources failing the operation raises. -/
theorem C2_news_failure_semantics_witness :
    ∃ e, get_indian_stock_news envBothFail "TCS.NS" "TCS" none 5 = .error e :=
  (C2_news_failure_semantics envBothFail "TCS.NS" "TCS" none 5).1.mpr
    ⟨by decide, by decide, by decide⟩

/-- C10: the requested item count goes into a Python slice unvalidated:
when some source succeeded, zero yields the empty sequence reported as
success, and a negative count removes the last abs n elements of the
sorted merge instead of failing. -/
theorem C10_slice_semantics (env : NewsEnv) (t s : String) (q : Option String)
    (h : (yfProcessed env t).2 = true ∨ (googleProcessed env s q).2 = true) :
    get_indian_stock_news env t s q 0 = .ok []
    ∧ ∀ n : Int, n < 0 →
        get_indian_stock_news env t s q n
          = .ok ((sortedNews env t s q).take
              ((sortedNews env t s q).length - (-n).toNat)) := by
  have hcond : ¬ (combinedNews env t s q = [] ∧ (yfProcessed env t).2 = false
      ∧ (googleProcessed env s q).2 = false) := by
    rintro ⟨_, h2, h3⟩
    rcases h with h | h <;> simp_all
  constructor
  · unfold get_indian_stock_news
    rw [if_neg hcond]
    simp [pySliceTo]
  · intro n hn
    unfold get_indian_stock_news
    rw [if_neg hcond]
    unfold pySliceTo
    rw [if_neg (by omega : ¬ (0 : Int) ≤ n)]

/-- Witness for C10 with a succeeding empty Yahoo feed. -/
theorem C10_slice_semantics_witness :
    get_indian_stock_news envYEmpty "T" "S" none 0 = .ok []
    ∧ get_indian_stock_news envYEmpty "T" "S" none (-1)
      = .ok ((sortedNews envYEmpty "T" "S" none).take
          ((sortedNews envYEmpty "T" "S" none).length - 1)) := by
  have h := C10_slice_semantics envYEmpty "T" "S" none (Or.inl (by decide))
  exact ⟨h.1, h.2 (-1) (by decide)⟩

/-- C9: every successful news result is the stable descending sort of the
concatenation of the surviving items of both sources, truncated by the slice;
re-sorting the returned sequence yields the identical sequence. -/
theorem C9_sorted_merge_idempotent (env : NewsEnv) (t s : String)
    (q : Option String) (m : Int) (l : List NewsItem)
    (h : get_indian_stock_news env t s q m = .ok l) :
    l = pySliceTo ((combinedNews env t s q).mergeSort newsDescBy) m
    ∧ l.mergeSort newsDescBy = l := by
  have hl := news_ok_eq env t s q m l h
  refine ⟨hl, ?_⟩
  have hs : List.Pairwise (fun a b => newsDescBy a b = true)
      ((combinedNews env t s q).mergeSort newsDescBy) :=
    List.sorted_mergeSort newsDescBy_trans newsDescBy_total _
  have hp : List.Pairwise (fun a b => newsDescBy a b = true) l := by
    rw [hl]
    exact List.Pairwise.sublist (pySliceTo_sublist _ m) hs
  exact List.mergeSort_of_sorted hp

unseal List.merge List.mergeSort in
/-- Witness for C9 on a one-item news world. -/
theorem C9_sorted_merge_idempotent_witness :
    [gItemC4] = pySliceTo ((combinedNews envC4 "T" "S" none).mergeSort newsDescBy) 10
    ∧ [gItemC4].mergeSort newsDescBy = [gItemC4] :=
  C9_sorted_merge_idempotent envC4 "T" "S" none 10 [gItemC4] (by decide)

unseal List.merge List.mergeSort in
/-- C4 as stated is false: a Google News entry without any link survives
into the returned sequence with an empty link instead of being dropped. -/
theorem C4_news_link_counterexample :
    get_indian_stock_news envC4 "T" "S" none 10 = .ok [gItemC4]
    ∧ gItemC4.link = "" ∧ gItemC4.source = "Google News" := by
  decide

/-- C4 amended: only the Yahoo Finance side drops linkless raw items
(preferring the canonical over the click-through URL), so every returned
item tagged Yahoo Finance has a non-empty link; Google News items carry
whatever link field the entry had, possibly empty. -/
theorem C4_amended_yahoo_links (env : NewsEnv) (t s : String)
    (q : Option String) (m : Int) (l : List NewsItem)
    (h : get_indian_stock_news env t s q m = .ok l) :
    ∀ it ∈ l, it.source = "Yahoo Finance" → it.link ≠ "" := by
  intro it hit hsrc
  have hl := news_ok_eq env t s q m l h
  rw [hl] at hit
  have hmem : it ∈ (combinedNews env t s q).mergeSort newsDescBy :=
    (pySliceTo_sublist _ m).subset hit
  rw [List.mem_mergeSort] at hmem
  unfold combinedNews at hmem
  rcases List.mem_append.mp hmem with hy | hg
  · unfold yfProcessed at hy
    cases hf : env.yfFetch t with
    | error e =>
      rw [hf] at hy
      simp at hy
    | ok raws =>
      rw [hf] at hy
      simp only [List.mem_filterMap] at hy
      rcases hy with ⟨raw, _, hpr⟩
      exact (processYahooItem_link _ raw it hpr).1
  · simp only [googleProcessed] at hg
    cases hf : env.googleFetch
        (build_google_news_rss_url env (q.getD (s ++ " stock India"))) with
    | error e =>
      rw [hf] at hg
      simp at hg
    | ok entries =>
      rw [hf] at hg
      by_cases he : entries.isEmpty
      · simp [he] at hg
      · simp [he, List.mem_filterMap] at hg
        rcases hg with ⟨e, _, hpr⟩
        have hgs := processGoogleEntry_source _ e it hpr
        rw [hsrc] at hgs
        exact absurd hgs (by decide)

unseal List.merge List.mergeSort in
/-- Witness for C4 amended on a one-item Yahoo news world. -/
theorem C4_amended_yahoo_links_witness :
    yItemW.link ≠ "" :=
  C4_amended_yahoo_links envY1 "T" "S" none 10 [yItemW] (by decide)
    yItemW (by decide) (by decide)

/-- C1 as stated is false: when the financials accessor raises, the single
guarded block stops, the remaining sub-sections are never fetched, and the
returned mapping holds only the info key instead of all five keys. -/
theorem C1_fundamentals_counterexample :
    get_indian_stock_fundamentals fundC1 "INFY.NS" = .ok [("info", some 7)]
    ∧ [("info", (some 7 : Option Nat))].map Prod.fst
        ≠ ["info", "financials", "balance_sheet", "cashflow", "sustainability"] := by
  decide

/-- C1 amended: the five sub-sections sit in one guarded block, read in a
fixed order; a sub-section that yields an empty or null structure stores an
empty mapping and the block continues, so when no accessor raises the
returned mapping has exactly the five keys in order, with an empty mapping
for each empty sub-section — but a raising accessor aborts the remaining
sub-sections. -/
theorem C1_fundamentals_amended (fetch : String → FundFetch) (ticker : String)
    (hT : (fetch (ensureYahooSuffix ticker)).tickerErr = none)
    (h1 : (fetch (ensureYahooSuffix ticker)).info.isRaise = false)
    (h2 : (fetch (ensureYahooSuffix ticker)).financials.isRaise = false)
    (h3 : (fetch (ensureYahooSuffix ticker)).balance_sheet.isRaise = false)
    (h4 : (fetch (ensureYahooSuffix ticker)).cashflow.isRaise = false)
    (h5 : (fetch (ensureYahooSuffix ticker)).sustainability.isRaise = false) :
    get_indian_stock_fundamentals fetch ticker = .ok
      [("info", (fetch (ensureYahooSuffix ticker)).info.stored),
       ("financials", (fetch (ensureYahooSuffix ticker)).financials.stored),
       ("balance_sheet", (fetch (ensureYahooSuffix ticker)).balance_sheet.stored),
       ("cashflow", (fetch (ensureYahooSuffix ticker)).cashflow.stored),
       ("sustainability", (fetch (ensureYahooSuffix ticker)).sustainability.stored)] := by
  simp only [get_indian_stock_fundamentals, fundHandle, hT]
  rcases FetchResult.not_raise_cases _ h1 with hi | ⟨vi, hi⟩ <;>
  rcases FetchResult.not_raise_cases _ h2 with hf2 | ⟨vf, hf2⟩ <;>
  rcases FetchResult.not_raise_cases _ h3 with hb | ⟨vb, hb⟩ <;>
  rcases FetchResult.not_raise_cases _ h4 with hc | ⟨vc, hc⟩ <;>
  rcases FetchResult.not_raise_cases _ h5 with hs5 | ⟨vs, hs5⟩ <;>
    simp [fundSections, hi, hf2, hb, hc, hs5, FetchResult.stored]

/-- Witness for C1 amended: with no raising accessor and two empty
sub-sections the five keys are all present. -/
theorem C1_fundamentals_amended_witness :
    get_indian_stock_fundamentals fundW "TCS" = .ok
      [("info", some 1), ("financials", none), ("balance_sheet", some 2),
       ("cashflow", none), ("sustainability", some 3)] :=
  C1_fundamentals_amended fundW "TCS" (by decide) (by decide) (by decide)
    (by decide) (by decide) (by decide)

/-- C3 as stated is false: a quote served by the Alpha Vantage fallback
carries the provider-reported change (not the difference of the returned
price and previous close) and a string change percent. -/
theorem C3_quote_change_counterexample :
    get_indian_stock_quote fyFail faC3 "TCS" = .ok qA
    ∧ qA.change ≠ round2 (qA.current_price - qA.previous_close)
    ∧ (∀ p : ℚ, qA.change_percent ≠ .num p) := by
  refine ⟨?_, ?_, ?_⟩
  · rfl
  · show (5 : ℚ) ≠ round2 ((100 : ℚ) - 90)
    have h10 : ((100 : ℚ) - 90) = ((10 : ℤ) : ℚ) := by norm_num
    rw [h10, round2_intCast]
    norm_num
  · intro p
    simp [qA]

/-- C3 amended: the arithmetic contract holds exactly for quotes served by
the primary Yahoo Finance path: change is the rounded difference of
current price and previous close, change percent is the rounded ratio
times 100 computed from the unrounded difference, and a zero previous
close yields exactly zero instead of a division fault. -/
theorem C3_amended_yahoo_arithmetic (fy : String → HttpOutcome YahooChart)
    (fa : String → HttpOutcome AlphaResp) (s : String) (q : Quote)
    (h : get_indian_stock_quote fy fa s = .ok q)
    (hds : q.data_source = "Yahoo Finance") :
    q.change = round2 (q.current_price - q.previous_close)
    ∧ q.change_percent = .num (round2 (if q.previous_close = 0 then 0
        else (q.current_price - q.previous_close) / q.previous_close * 100))
    ∧ (q.previous_close = 0 → q.change_percent = .num 0) := by
  cases hy : get_indian_stock_quote_yahoo fy s with
  | ok r =>
    have h2 : Except.ok { r with data_source := "Yahoo Finance" }
        = (Except.ok q : Except String Quote) := by
      rw [← h]
      simp [get_indian_stock_quote, hy]
    obtain rfl : { r with data_source := "Yahoo Finance" } = q := by
      injection h2
    unfold get_indian_stock_quote_yahoo at hy
    cases ho : fy (ensureYahooSuffix s) with
    | statusErr c =>
      rw [ho] at hy
      exact absurd hy (by simp [yahooHandle])
    | exn m =>
      rw [ho] at hy
      exact absurd hy (by simp [yahooHandle])
    | ok chart =>
      rw [ho] at hy
      simp only [yahooHandle] at hy
      cases hce : chart.chartError with
      | some e =>
        simp only [hce] at hy
        exact absurd hy (by simp)
      | none =>
        simp only [hce, Except.ok.injEq] at hy
        obtain rfl := hy
        refine ⟨rfl, rfl, ?_⟩
        intro hp
        simp only [] at hp
        simp [hp, round2_zero]
  | error ye =>
    cases ha : get_indian_stock_quote_alphavantage fa s with
    | ok r =>
      have h2 : Except.ok { r with data_source := "Alpha Vantage" }
          = (Except.ok q : Except String Quote) := by
        rw [← h]
        simp [get_indian_stock_quote, hy, ha]
      obtain rfl : { r with data_source := "Alpha Vantage" } = q := by
        injection h2
      exact absurd hds (by simp)
    | error ae =>
      have : get_indian_stock_quote fy fa s
          = .error ("Both APIs failed - Yahoo: " ++ ye ++ ", Alpha Vantage: " ++ ae) := by
        simp [get_indian_stock_quote, hy, ha]
      rw [h] at this
      exact absurd this (by simp)

/-- Witness for C3 amended at a concrete Yahoo-served quote. -/
theorem C3_amended_yahoo_arithmetic_witness :
    qWY.change = round2 (qWY.current_price - qWY.previous_close)
    ∧ qWY.change_percent = .num (round2 (if qWY.previous_close = 0 then 0
        else (qWY.current_price - qWY.previous_close) / qWY.previous_close * 100))
    ∧ (qWY.previous_close = 0 → qWY.change_percent = .num 0) := by
  have h50 : ¬ ((50 : ℚ) = 0) := by norm_num
  have hy : get_indian_stock_quote_yahoo fyOk "TCS" = .ok qW0 := by
    simp [get_indian_stock_quote_yahoo, yahooHandle, fyOk, chartW, qW0, h50]
  have h : get_indian_stock_quote fyOk faFail "TCS" = .ok qWY := by
    simp [get_indian_stock_quote, hy, qWY]
  exact C3_amended_yahoo_arithmetic fyOk faFail "TCS" qWY h rfl

/-- C5: the orchestrator always attempts every requested sub-component,
its overall success flag is the conjunction of the present sub-results
success flags, failed_components names exactly the failing components, and
the report is always a structured value. -/
theorem C5_analysis_orchestration (fy : String → HttpOutcome YahooChart)
    (fa : String → HttpOutcome AlphaResp) (fund : String → FundFetch)
    (env : NewsEnv) (ticker stock_name : String) (include_news : Bool)
    (max_news : Int) (r : AnalysisReport)
    (hr : r = get_stock_analysis fy fa fund env ticker stock_name include_news max_news) :
    (r.success = true ↔ (r.quote.success = true ∧ r.fundamentals.success = true
      ∧ ∀ nr ∈ r.news, nr.success = true))
    ∧ (r.news = none ↔ include_news = false)
    ∧ r.quote = get_stock_quote fy fa (stripExchangeSuffix ticker)
    ∧ r.fundamentals = get_stock_fundamentals fund ticker
    ∧ (include_news = true →
        r.news = some (get_stock_news env ticker stock_name none max_news))
    ∧ (r.failed_components = none ↔ r.success = true)
    ∧ (∀ fc, r.failed_components = some fc →
        fc = (if r.quote.success = true then [] else ["quote"])
          ++ (if r.fundamentals.success = true then [] else ["fundamentals"])
          ++ (match r.news with
              | some nr => if nr.success = true then [] else ["news"]
              | none => [])) := by
  subst hr
  unfold get_stock_analysis
  cases hq : (get_stock_quote fy fa (stripExchangeSuffix ticker)).success <;>
  cases hf : (get_stock_fundamentals fund ticker).success <;>
  cases include_news <;>
  cases hn : (get_stock_news env ticker stock_name none max_news).success <;>
    simp_all

/-- Witness for C5 at one concrete world. -/
theorem C5_analysis_orchestration_witness :
    ((get_stock_analysis fyFail faFail fundW envYEmpty "TCS.NS" "TCS" true 5).failed_components
        = none
      ↔ (get_stock_analysis fyFail faFail fundW envYEmpty "TCS.NS" "TCS" true 5).success
        = true) :=
  (C5_analysis_orchestration fyFail faFail fundW envYEmpty "TCS.NS" "TCS" true 5
    _ rfl).2.2.2.2.2.1

end StockMCP
